import Mathlib

/-!
# valkey-go façade: typed helpers over a key-value store client

A shallow embedding of `src/valkey.go`.  Every method of `Client` builds one
command with the wrapped library's fluent builder, dispatches it through the
wrapped handle and post-processes the response.  The wrapped library is an
external dependency, so its response API is a parameter (`Valkey`) of every
method; the remote store is an explicit state threaded through `Do`.

Go conventions used throughout:
* a Go `error` is `Option E`, with `none` for the `nil` error;
* a Go result pair `(v, err)` is a Lean pair;
* a Go `[]string` / `map[string]string` is an `Option` of a list, with `none`
  for the `nil` slice / map and `some []` for the empty, non-nil one;
* `int64` and `int` values are only ever passed through, so they are `Int`.
-/

set_option autoImplicit false

namespace ValkeyGo

/-! ## Commands -/

/-- Go's `time.Duration`, a signed number of nanoseconds. -/
abbrev Duration := Int

/-- One argument of a built command: a string, an integer, or the `EX`
option with its duration. -/
inductive Arg where
  | str (s : String)
  | int (n : Int)
  | ex (d : Duration)
  deriving DecidableEq, Repr

/-- Modelled from the spec: the dependency's command builder is not under
`src/`.  A command under construction is the operation name and the arguments
appended so far; every builder call appends its arguments at the end. -/
structure Builder where
  op : String
  args : List Arg
  deriving DecidableEq, Repr

/-- The finished command, `valkey.Completed`. -/
structure Completed where
  op : String
  args : List Arg
  deriving DecidableEq, Repr

namespace B

def Del : Builder := ⟨"DEL", []⟩
def Set : Builder := ⟨"SET", []⟩
def Get : Builder := ⟨"GET", []⟩
def Rpush : Builder := ⟨"RPUSH", []⟩
def Lpush : Builder := ⟨"LPUSH", []⟩
def Lrange : Builder := ⟨"LRANGE", []⟩
def Lindex : Builder := ⟨"LINDEX", []⟩
def Llen : Builder := ⟨"LLEN", []⟩
def Hset : Builder := ⟨"HSET", []⟩
def Hget : Builder := ⟨"HGET", []⟩
def Hgetall : Builder := ⟨"HGETALL", []⟩
def Hlen : Builder := ⟨"HLEN", []⟩
def Hexists : Builder := ⟨"HEXISTS", []⟩
def Exists : Builder := ⟨"EXISTS", []⟩

end B

namespace Builder

def Key (b : Builder) (key : String) : Builder := { b with args := b.args ++ [Arg.str key] }
def Value (b : Builder) (value : String) : Builder := { b with args := b.args ++ [Arg.str value] }
def Ex (b : Builder) (d : Duration) : Builder := { b with args := b.args ++ [Arg.ex d] }
def Element (b : Builder) (value : List String) : Builder :=
  { b with args := b.args ++ value.map Arg.str }
def Start (b : Builder) (start : Int) : Builder := { b with args := b.args ++ [Arg.int start] }
def Stop (b : Builder) (stop : Int) : Builder := { b with args := b.args ++ [Arg.int stop] }
def Index (b : Builder) (index : Int) : Builder := { b with args := b.args ++ [Arg.int index] }
def Field (b : Builder) (field : String) : Builder := { b with args := b.args ++ [Arg.str field] }
/-- The argument-less `FieldValue()` step of `HSET`: it only opens the list of pairs. -/
def FieldValues (b : Builder) : Builder := b
def FieldValue (b : Builder) (field value : String) : Builder :=
  { b with args := b.args ++ [Arg.str field, Arg.str value] }
def Build (b : Builder) : Completed := ⟨b.op, b.args⟩

end Builder

/-! ## The wrapped library -/

/-- Modelled from the spec: the wrapped client library is not under `src/`.
Its operations that the code calls are parameters: `Do` dispatches one command
through a handle `H` under a context `K` against the remote state `σ` and
yields a response `R`; `Error` is the response's error; `IsValkeyNil` tells the
remote "nil" condition; the remaining fields are the response decoders. -/
structure Valkey (E R H K σ : Type) where
  Do : H → K → Completed → σ → R × σ
  Error : R → Option E
  IsValkeyNil : E → Bool
  ToString : R → String × Option E
  AsInt64 : R → Int × Option E
  AsStrSlice : R → Option (List String) × Option E
  AsStrMap : R → Option (List (String × String)) × Option E
  AsBool : R → Bool × Option E

/-- `valkey.ClientOption`, with the fields the constructor sets. -/
structure ClientOption (T : Type) where
  InitAddress : List String
  Password : String
  SelectDB : Int
  ForceSingleClient : Bool
  TLSConfig : Option T
  deriving DecidableEq, Repr

/-! ## The client -/

structure Client (H K : Type) where
  C : H
  Ctx : K
  deriving DecidableEq, Repr

section Methods

variable {E R H K σ T : Type}

/-- `NewClient`; `newClient` is the dependency's constructor and `background`
is `context.Background()`. -/
def NewClient (newClient : ClientOption T → H × Option E) (background : K)
    (address password : String) (db : Int) (forceSingleClient : Bool)
    (tlsConfig : Option T) : Option (Client H K) × Option E :=
  let r := newClient
    { InitAddress := [address], Password := password, SelectDB := db,
      ForceSingleClient := forceSingleClient, TLSConfig := tlsConfig }
  match r.2 with
  | some err => (none, some err)
  | none => (some ⟨r.1, background⟩, none)

variable (V : Valkey E R H K σ)

def Client.Delete (c : Client H K) (key : String) (s : σ) : Option E × σ :=
  let r := V.Do c.C c.Ctx (B.Del.Key key).Build s
  (V.Error r.1, r.2)

def Client.SetString (c : Client H K) (key value : String) (ex : Option Duration) (s : σ) :
    Option E × σ :=
  let cmd : Completed :=
    match ex with
    | some d => (((B.Set.Key key).Value value).Ex d).Build
    | none => ((B.Set.Key key).Value value).Build
  let r := V.Do c.C c.Ctx cmd s
  (V.Error r.1, r.2)

def Client.GetString (c : Client H K) (key : String) (s : σ) : (String × Option E) × σ :=
  let r := V.Do c.C c.Ctx (B.Get.Key key).Build s
  let resp := r.1
  match V.Error resp with
  | some err => if V.IsValkeyNil err then (("", none), r.2) else (("", some err), r.2)
  | none =>
    let d := V.ToString resp
    match d.2 with
    | some err => (("", some err), r.2)
    | none => ((d.1, none), r.2)

def Client.GetInt64 (c : Client H K) (key : String) (s : σ) : (Int × Option E) × σ :=
  let r := V.Do c.C c.Ctx (B.Get.Key key).Build s
  let resp := r.1
  match V.Error resp with
  | some err => if V.IsValkeyNil err then ((0, none), r.2) else (V.AsInt64 resp, r.2)
  | none => (V.AsInt64 resp, r.2)

def Client.AppendSlice (c : Client H K) (key : String) (value : List String) (s : σ) :
    Option E × σ :=
  let r := V.Do c.C c.Ctx ((B.Rpush.Key key).Element value).Build s
  (V.Error r.1, r.2)

def Client.AppendSliceReverse (c : Client H K) (key : String) (value : List String) (s : σ) :
    Option E × σ :=
  let r := V.Do c.C c.Ctx ((B.Lpush.Key key).Element value).Build s
  (V.Error r.1, r.2)

def Client.GetSlice (c : Client H K) (key : String) (start stop : Int) (s : σ) :
    (Option (List String) × Option E) × σ :=
  let r := V.Do c.C c.Ctx (((B.Lrange.Key key).Start start).Stop stop).Build s
  let resp := r.1
  match V.Error resp with
  | some err => if V.IsValkeyNil err then ((some [], none), r.2) else ((none, some err), r.2)
  | none =>
    let d := V.AsStrSlice resp
    match d.2 with
    | some err => ((none, some err), r.2)
    | none => ((d.1, none), r.2)

def Client.GetSliceByIndex (c : Client H K) (key : String) (index : Int) (s : σ) :
    (String × Option E) × σ :=
  let r := V.Do c.C c.Ctx ((B.Lindex.Key key).Index index).Build s
  let resp := r.1
  match V.Error resp with
  | some err => if V.IsValkeyNil err then (("", none), r.2) else (("", some err), r.2)
  | none =>
    let d := V.ToString resp
    match d.2 with
    | some err => (("", some err), r.2)
    | none => ((d.1, none), r.2)

def Client.GetSliceLen (c : Client H K) (key : String) (s : σ) : (Int × Option E) × σ :=
  let r := V.Do c.C c.Ctx (B.Llen.Key key).Build s
  let resp := r.1
  match V.Error resp with
  | some err => if V.IsValkeyNil err then ((0, none), r.2) else ((0, some err), r.2)
  | none =>
    let d := V.AsInt64 resp
    match d.2 with
    | some err => ((0, some err), r.2)
    | none => ((d.1, none), r.2)

def Client.SetMap (c : Client H K) (key field value : String) (s : σ) : Option E × σ :=
  let r := V.Do c.C c.Ctx (((B.Hset.Key key).FieldValues).FieldValue field value).Build s
  (V.Error r.1, r.2)

def Client.GetMapStr (c : Client H K) (key field : String) (s : σ) : (String × Option E) × σ :=
  let r := V.Do c.C c.Ctx ((B.Hget.Key key).Field field).Build s
  let resp := r.1
  match V.Error resp with
  | some err => if V.IsValkeyNil err then (("", none), r.2) else (("", some err), r.2)
  | none =>
    let d := V.ToString resp
    match d.2 with
    | some err => (("", some err), r.2)
    | none => ((d.1, none), r.2)

def Client.GetMapInt64 (c : Client H K) (key field : String) (s : σ) : (Int × Option E) × σ :=
  let r := V.Do c.C c.Ctx ((B.Hget.Key key).Field field).Build s
  let resp := r.1
  match V.Error resp with
  | some err => if V.IsValkeyNil err then ((0, none), r.2) else ((0, some err), r.2)
  | none =>
    let d := V.AsInt64 resp
    match d.2 with
    | some err => ((0, some err), r.2)
    | none => ((d.1, none), r.2)

def Client.GetMapAll (c : Client H K) (key : String) (s : σ) :
    (Option (List (String × String)) × Option E) × σ :=
  let r := V.Do c.C c.Ctx (B.Hgetall.Key key).Build s
  let resp := r.1
  match V.Error resp with
  | some err => if V.IsValkeyNil err then ((some [], none), r.2) else ((none, some err), r.2)
  | none =>
    let d := V.AsStrMap resp
    match d.2 with
    | some err => ((none, some err), r.2)
    | none => ((d.1, none), r.2)

def Client.GetMapLen (c : Client H K) (key : String) (s : σ) : (Int × Option E) × σ :=
  let r := V.Do c.C c.Ctx (B.Hlen.Key key).Build s
  let resp := r.1
  match V.Error resp with
  | some err => if V.IsValkeyNil err then ((0, none), r.2) else ((0, some err), r.2)
  | none =>
    let d := V.AsInt64 resp
    match d.2 with
    | some err => ((0, some err), r.2)
    | none => ((d.1, none), r.2)

def Client.CheckIfMapFieldExists (c : Client H K) (key field : String) (s : σ) :
    (Bool × Option E) × σ :=
  let r := V.Do c.C c.Ctx ((B.Hexists.Key key).Field field).Build s
  let resp := r.1
  match V.Error resp with
  | some err => if V.IsValkeyNil err then ((false, none), r.2) else ((false, some err), r.2)
  | none =>
    let d := V.AsBool resp
    match d.2 with
    | some err => ((false, some err), r.2)
    | none => ((d.1, none), r.2)

def Client.CheckIfKeyExists (c : Client H K) (key : String) (s : σ) : (Bool × Option E) × σ :=
  let r := V.Do c.C c.Ctx (B.Exists.Key key).Build s
  let resp := r.1
  match V.Error resp with
  | some err => if V.IsValkeyNil err then ((false, none), r.2) else ((false, some err), r.2)
  | none =>
    let d := V.AsBool resp
    match d.2 with
    | some err => ((false, some err), r.2)
    | none => ((d.1, none), r.2)

/-- The response reports the remote "nil" (key or field absent) condition:
`resp.Error()` is non-nil and `valkey.IsValkeyNil` accepts it. -/
def isNotFound (resp : R) : Bool :=
  match V.Error resp with
  | some err => V.IsValkeyNil err
  | none => false

/-- What `GetInt64` makes of a response: `(0, nil)` on the "nil" condition, the
integer decoder's pair otherwise. -/
def int64FallThrough (resp : R) : Int × Option E :=
  match V.Error resp with
  | some err => if V.IsValkeyNil err then (0, none) else V.AsInt64 resp
  | none => V.AsInt64 resp

/-- What `GetSliceLen`, `GetMapLen` and `GetMapInt64` make of a response. -/
def int64EarlyReturn (resp : R) : Int × Option E :=
  match V.Error resp with
  | some err => if V.IsValkeyNil err then (0, none) else (0, some err)
  | none =>
    match (V.AsInt64 resp).2 with
    | some err => (0, some err)
    | none => ((V.AsInt64 resp).1, none)

/-- The response the handle gives when `cmd` is dispatched in remote state `s`. -/
def Client.response (c : Client H K) (cmd : Completed) (s : σ) : R :=
  (V.Do c.C c.Ctx cmd s).1

end Methods

/-! ## A reference instance of the wrapped library

Used to run the methods on concrete inputs.  Replies are the remote store's
reply kinds; the decoders follow the wrapped library's documented behaviour. -/

inductive ValkeyError where
  /-- The remote "nil" reply seen as an error. -/
  | Nil
  /-- An error reply of the remote. -/
  | Server (msg : String)
  /-- A decode failure. -/
  | Decode (msg : String)
  deriving DecidableEq, Repr

inductive Reply where
  | null
  | error (msg : String)
  | str (s : String)
  | int (n : Int)
  | array (xs : List String)
  | map (kvs : List (String × String))
  deriving DecidableEq, Repr

namespace Reply

def Error : Reply → Option ValkeyError
  | null => some ValkeyError.Nil
  | error msg => some (ValkeyError.Server msg)
  | _ => none

def ToString : Reply → String × Option ValkeyError
  | str s => (s, none)
  | null => ("", some ValkeyError.Nil)
  | error msg => ("", some (ValkeyError.Server msg))
  | _ => ("", some (ValkeyError.Decode "not a string"))

/-- The value of a non-empty run of decimal digits. -/
def digits (cs : List Char) : Option Nat :=
  if cs = [] then none
  else cs.foldl
    (fun acc ch => acc.bind fun n => if ch.isDigit then some (10 * n + (ch.toNat - 48)) else none)
    (some 0)

/-- Go's `strconv.ParseInt(s, 10, 64)`: a syntax error yields `0`, a range
error yields the nearest bound of `int64`, both together with an error. -/
def ParseInt (s : String) : Int × Option ValkeyError :=
  match s.toList with
  | '-' :: cs =>
    match digits cs with
    | none => (0, some (ValkeyError.Decode "invalid syntax"))
    | some n =>
      if n > 2 ^ 63 then (-(2 ^ 63), some (ValkeyError.Decode "value out of range"))
      else (-(n : Int), none)
  | '+' :: cs =>
    match digits cs with
    | none => (0, some (ValkeyError.Decode "invalid syntax"))
    | some n =>
      if n > 2 ^ 63 - 1 then (2 ^ 63 - 1, some (ValkeyError.Decode "value out of range"))
      else ((n : Int), none)
  | cs =>
    match digits cs with
    | none => (0, some (ValkeyError.Decode "invalid syntax"))
    | some n =>
      if n > 2 ^ 63 - 1 then (2 ^ 63 - 1, some (ValkeyError.Decode "value out of range"))
      else ((n : Int), none)

def AsInt64 : Reply → Int × Option ValkeyError
  | int n => (n, none)
  | str s => ParseInt s
  | null => (0, some ValkeyError.Nil)
  | error msg => (0, some (ValkeyError.Server msg))
  | _ => (0, some (ValkeyError.Decode "not a string"))

def AsStrSlice : Reply → Option (List String) × Option ValkeyError
  | array xs => (some xs, none)
  | null => (none, some ValkeyError.Nil)
  | error msg => (none, some (ValkeyError.Server msg))
  | _ => (none, some (ValkeyError.Decode "not an array"))

def AsStrMap : Reply → Option (List (String × String)) × Option ValkeyError
  | map kvs => (some kvs, none)
  | null => (none, some ValkeyError.Nil)
  | error msg => (none, some (ValkeyError.Server msg))
  | _ => (none, some (ValkeyError.Decode "not a map"))

def AsBool : Reply → Bool × Option ValkeyError
  | int n => (n ≠ 0, none)
  | null => (false, some ValkeyError.Nil)
  | error msg => (false, some (ValkeyError.Server msg))
  | _ => (false, some (ValkeyError.Decode "not a bool"))

end Reply

def ValkeyError.IsNil : ValkeyError → Bool
  | ValkeyError.Nil => true
  | _ => false

/-- A handle that answers every command with `reply` and records the commands
it was given, oldest first. -/
def replying (reply : Reply) : Valkey ValkeyError Reply Unit Unit (List Completed) where
  Do := fun _ _ cmd log => (reply, log ++ [cmd])
  Error := Reply.Error
  IsValkeyNil := ValkeyError.IsNil
  ToString := Reply.ToString
  AsInt64 := Reply.AsInt64
  AsStrSlice := Reply.AsStrSlice
  AsStrMap := Reply.AsStrMap
  AsBool := Reply.AsBool

/-- The client over the reference handle. -/
def unitClient : Client Unit Unit := ⟨(), ()⟩

/-- A dependency constructor that always succeeds and hands back the options
it was given as the handle. -/
def echoOptions {T E : Type} (o : ClientOption T) : ClientOption T × Option E := (o, none)

/-- A dependency constructor that always fails with `err`. -/
def failingWith {T E : Type} (err : E) (_ : ClientOption T) : Unit × Option E := ((), some err)

/-! ## A list store -/

/-- Modelled from the spec: the remote store is not part of the repository.
Every key holds a list of strings, a key without an entry holding the empty
list (section 8: a key "with no existing entry"). -/
abbrev ListStore := String → List String

/-- The store in which no key has an entry. -/
def emptyStore : ListStore := fun _ => []

/-- The string arguments of a command, in order. -/
def strArgs : List Arg → List String
  | [] => []
  | Arg.str s :: rest => s :: strArgs rest
  | _ :: rest => strArgs rest

/-- Modelled from the spec: `LRANGE` with "inclusive start/stop per remote
semantics": offsets are zero-based, a negative offset counts from the end of
the list (`-1` is the last element), and offsets outside the list are clamped. -/
def lrange (l : List String) (start stop : Int) : List String :=
  let n : Int := l.length
  let a := if start < 0 then max (start + n) 0 else start
  let b := if stop < 0 then stop + n else min stop (n - 1)
  if a > b then [] else (l.drop a.toNat).take (b - a + 1).toNat

/-- Modelled from the spec: the remote list store behind `RPUSH`, `LPUSH` and
`LRANGE` (section 4.1: `RPUSH` "appends to tail", `LPUSH` "appends to head",
one element after the other, so that the elements "end up in reverse input
order at the head").  Both answer with the new length.  Any other command is
answered with an error reply and leaves the store as it is. -/
def listStoreDo (_ : Unit) (_ : Unit) (cmd : Completed) (s : ListStore) : Reply × ListStore :=
  match cmd.args with
  | Arg.str key :: rest =>
    if cmd.op = "RPUSH" then
      let l := s key ++ strArgs rest
      (Reply.int l.length, Function.update s key l)
    else if cmd.op = "LPUSH" then
      let l := (strArgs rest).foldl (fun acc x => x :: acc) (s key)
      (Reply.int l.length, Function.update s key l)
    else if cmd.op = "LRANGE" then
      match rest with
      | [Arg.int start, Arg.int stop] => (Reply.array (lrange (s key) start stop), s)
      | _ => (Reply.error "ERR syntax error", s)
    else (Reply.error "ERR unknown command", s)
  | _ => (Reply.error "ERR wrong number of arguments", s)

/-- The reference library over the list store. -/
def listStore : Valkey ValkeyError Reply Unit Unit ListStore where
  Do := listStoreDo
  Error := Reply.Error
  IsValkeyNil := ValkeyError.IsNil
  ToString := Reply.ToString
  AsInt64 := Reply.AsInt64
  AsStrSlice := Reply.AsStrSlice
  AsStrMap := Reply.AsStrMap
  AsBool := Reply.AsBool

/-! ## Missing keys, remote errors and decoding -/

section Contract

variable {E R H K σ T : Type}

/-- C1: when the response reports the remote "nil" condition, every read
accessor returns the zero value of its type and a nil error (an empty, non-nil
sequence or mapping for `GetSlice` and `GetMapAll`), whatever decoder the
library provides: the decoder is not consulted. -/
theorem missing_key_yields_zero_value (V : Valkey E R H K σ) (c : Client H K) (s : σ) :
    (∀ key, isNotFound V (c.response V ⟨"GET", [Arg.str key]⟩ s) = true →
      ∀ d, (Client.GetString { V with ToString := d } c key s).1 = ("", none)) ∧
    (∀ key index,
      isNotFound V (c.response V ⟨"LINDEX", [Arg.str key, Arg.int index]⟩ s) = true →
      ∀ d, (Client.GetSliceByIndex { V with ToString := d } c key index s).1 = ("", none)) ∧
    (∀ key field,
      isNotFound V (c.response V ⟨"HGET", [Arg.str key, Arg.str field]⟩ s) = true →
      ∀ d, (Client.GetMapStr { V with ToString := d } c key field s).1 = ("", none)) ∧
    (∀ key, isNotFound V (c.response V ⟨"LLEN", [Arg.str key]⟩ s) = true →
      ∀ d, (Client.GetSliceLen { V with AsInt64 := d } c key s).1 = (0, none)) ∧
    (∀ key, isNotFound V (c.response V ⟨"HLEN", [Arg.str key]⟩ s) = true →
      ∀ d, (Client.GetMapLen { V with AsInt64 := d } c key s).1 = (0, none)) ∧
    (∀ key field,
      isNotFound V (c.response V ⟨"HGET", [Arg.str key, Arg.str field]⟩ s) = true →
      ∀ d, (Client.GetMapInt64 { V with AsInt64 := d } c key field s).1 = (0, none)) ∧
    (∀ key, isNotFound V (c.response V ⟨"EXISTS", [Arg.str key]⟩ s) = true →
      ∀ d, (Client.CheckIfKeyExists { V with AsBool := d } c key s).1 = (false, none)) ∧
    (∀ key field,
      isNotFound V (c.response V ⟨"HEXISTS", [Arg.str key, Arg.str field]⟩ s) = true →
      ∀ d, (Client.CheckIfMapFieldExists { V with AsBool := d } c key field s).1
        = (false, none)) ∧
    (∀ key start stop,
      isNotFound V
        (c.response V ⟨"LRANGE", [Arg.str key, Arg.int start, Arg.int stop]⟩ s) = true →
      ∀ d, (Client.GetSlice { V with AsStrSlice := d } c key start stop s).1
        = (some [], none)) ∧
    (∀ key, isNotFound V (c.response V ⟨"HGETALL", [Arg.str key]⟩ s) = true →
      ∀ d, (Client.GetMapAll { V with AsStrMap := d } c key s).1 = (some [], none)) := by
  refine ⟨?_, ?_, ?_, ?_, ?_, ?_, ?_, ?_, ?_, ?_⟩
  all_goals
    intros
    rename_i h d
    simp only [Client.response, isNotFound, Client.GetString, Client.GetSliceByIndex,
      Client.GetMapStr, Client.GetSliceLen, Client.GetMapLen, Client.GetMapInt64,
      Client.CheckIfKeyExists, Client.CheckIfMapFieldExists, Client.GetSlice,
      Client.GetMapAll, B.Get, B.Lindex, B.Hget, B.Llen, B.Hlen, B.Exists, B.Hexists,
      B.Lrange, B.Hgetall, Builder.Key, Builder.Index, Builder.Field, Builder.Start,
      Builder.Stop, Builder.Build, List.nil_append, List.cons_append] at h ⊢
    split at h
    · simp_all
    · simp at h

/-- C1 at a concrete input: the remote answers with its nil reply, and the
decoders handed in would return tell-tale values if they were called. -/
theorem missing_key_yields_zero_value_witness :
    (Client.GetString { replying Reply.null with ToString := fun _ => ("consulted", none) }
      unitClient "k" []).1 = ("", none) ∧
    (Client.GetSliceLen { replying Reply.null with AsInt64 := fun _ => (7, none) }
      unitClient "k" []).1 = (0, none) ∧
    (Client.CheckIfKeyExists { replying Reply.null with AsBool := fun _ => (true, none) }
      unitClient "k" []).1 = (false, none) ∧
    (Client.GetSlice { replying Reply.null with AsStrSlice := fun _ => (none, none) }
      unitClient "k" 0 (-1) []).1 = (some [], none) ∧
    (Client.GetMapAll { replying Reply.null with AsStrMap := fun _ => (none, none) }
      unitClient "k" []).1 = (some [], none) :=
  ⟨(missing_key_yields_zero_value (replying Reply.null) unitClient []).1 "k" (by decide) _,
   (missing_key_yields_zero_value (replying Reply.null) unitClient []).2.2.2.1 "k"
     (by decide) _,
   (missing_key_yields_zero_value (replying Reply.null) unitClient []).2.2.2.2.2.2.1 "k"
     (by decide) _,
   (missing_key_yields_zero_value (replying Reply.null) unitClient []).2.2.2.2.2.2.2.2.1
     "k" 0 (-1) (by decide) _,
   (missing_key_yields_zero_value (replying Reply.null) unitClient []).2.2.2.2.2.2.2.2.2
     "k" (by decide) _⟩

/-- C2: a remote error is handed back unchanged.  The write operations return
the response's error itself, so they return `nil` exactly when the response
carries none; a read accessor whose response carries an error `e` that is not
the "nil" condition returns `e` with the zero value of its type. -/
theorem remote_error_propagated (V : Valkey E R H K σ) (c : Client H K) (s : σ) :
    (∀ key, (Client.Delete V c key s).1 = V.Error (c.response V ⟨"DEL", [Arg.str key]⟩ s)) ∧
    (∀ key value,
      (Client.SetString V c key value none s).1
        = V.Error (c.response V ⟨"SET", [Arg.str key, Arg.str value]⟩ s)) ∧
    (∀ key value d,
      (Client.SetString V c key value (some d) s).1
        = V.Error (c.response V ⟨"SET", [Arg.str key, Arg.str value, Arg.ex d]⟩ s)) ∧
    (∀ key value,
      (Client.AppendSlice V c key value s).1
        = V.Error (c.response V ⟨"RPUSH", Arg.str key :: value.map Arg.str⟩ s)) ∧
    (∀ key value,
      (Client.AppendSliceReverse V c key value s).1
        = V.Error (c.response V ⟨"LPUSH", Arg.str key :: value.map Arg.str⟩ s)) ∧
    (∀ key field value,
      (Client.SetMap V c key field value s).1
        = V.Error (c.response V ⟨"HSET", [Arg.str key, Arg.str field, Arg.str value]⟩ s)) ∧
    (∀ key e, V.Error (c.response V ⟨"GET", [Arg.str key]⟩ s) = some e →
      V.IsValkeyNil e = false → (Client.GetString V c key s).1 = ("", some e)) ∧
    (∀ key start stop e,
      V.Error (c.response V ⟨"LRANGE", [Arg.str key, Arg.int start, Arg.int stop]⟩ s)
        = some e →
      V.IsValkeyNil e = false → (Client.GetSlice V c key start stop s).1 = (none, some e)) ∧
    (∀ key index e,
      V.Error (c.response V ⟨"LINDEX", [Arg.str key, Arg.int index]⟩ s) = some e →
      V.IsValkeyNil e = false → (Client.GetSliceByIndex V c key index s).1 = ("", some e)) ∧
    (∀ key e, V.Error (c.response V ⟨"LLEN", [Arg.str key]⟩ s) = some e →
      V.IsValkeyNil e = false → (Client.GetSliceLen V c key s).1 = (0, some e)) ∧
    (∀ key field e,
      V.Error (c.response V ⟨"HGET", [Arg.str key, Arg.str field]⟩ s) = some e →
      V.IsValkeyNil e = false → (Client.GetMapStr V c key field s).1 = ("", some e)) ∧
    (∀ key field e,
      V.Error (c.response V ⟨"HGET", [Arg.str key, Arg.str field]⟩ s) = some e →
      V.IsValkeyNil e = false → (Client.GetMapInt64 V c key field s).1 = (0, some e)) ∧
    (∀ key e, V.Error (c.response V ⟨"HGETALL", [Arg.str key]⟩ s) = some e →
      V.IsValkeyNil e = false → (Client.GetMapAll V c key s).1 = (none, some e)) ∧
    (∀ key e, V.Error (c.response V ⟨"HLEN", [Arg.str key]⟩ s) = some e →
      V.IsValkeyNil e = false → (Client.GetMapLen V c key s).1 = (0, some e)) ∧
    (∀ key field e,
      V.Error (c.response V ⟨"HEXISTS", [Arg.str key, Arg.str field]⟩ s) = some e →
      V.IsValkeyNil e = false →
      (Client.CheckIfMapFieldExists V c key field s).1 = (false, some e)) ∧
    (∀ key e, V.Error (c.response V ⟨"EXISTS", [Arg.str key]⟩ s) = some e →
      V.IsValkeyNil e = false → (Client.CheckIfKeyExists V c key s).1 = (false, some e)) := by
  refine ⟨?_, ?_, ?_, ?_, ?_, ?_, ?_, ?_, ?_, ?_, ?_, ?_, ?_, ?_, ?_, ?_⟩
  · intro key; rfl
  · intro key value; rfl
  · intro key value d; rfl
  · intro key value; rfl
  · intro key value; rfl
  · intro key field value; rfl
  all_goals
    intros
    rename_i h hn
    simp only [Client.response, Client.GetString, Client.GetSliceByIndex,
      Client.GetMapStr, Client.GetSliceLen, Client.GetMapLen, Client.GetMapInt64,
      Client.CheckIfKeyExists, Client.CheckIfMapFieldExists, Client.GetSlice,
      Client.GetMapAll, B.Get, B.Lindex, B.Hget, B.Llen, B.Hlen, B.Exists, B.Hexists,
      B.Lrange, B.Hgetall, Builder.Key, Builder.Index, Builder.Field, Builder.Start,
      Builder.Stop, Builder.Build, List.nil_append, List.cons_append] at h ⊢
    simp [h, hn]

/-- C2 at a concrete input: the remote answers every command with the error
reply `ERR boom`. -/
theorem remote_error_propagated_witness :
    (Client.Delete (replying (Reply.error "ERR boom")) unitClient "k" []).1
      = some (ValkeyError.Server "ERR boom") ∧
    (Client.GetString (replying (Reply.error "ERR boom")) unitClient "k" []).1
      = ("", some (ValkeyError.Server "ERR boom")) ∧
    (Client.GetSlice (replying (Reply.error "ERR boom")) unitClient "k" 0 (-1) []).1
      = (none, some (ValkeyError.Server "ERR boom")) ∧
    (Client.CheckIfKeyExists (replying (Reply.error "ERR boom")) unitClient "k" []).1
      = (false, some (ValkeyError.Server "ERR boom")) :=
  ⟨(remote_error_propagated (replying (Reply.error "ERR boom")) unitClient []).1 "k",
   (remote_error_propagated (replying (Reply.error "ERR boom")) unitClient []).2.2.2.2.2.2.1
     "k" _ (by decide) (by decide),
   (remote_error_propagated (replying (Reply.error "ERR boom")) unitClient []).2.2.2.2.2.2.2.1
     "k" 0 (-1) _ (by decide) (by decide),
   (remote_error_propagated
     (replying (Reply.error "ERR boom")) unitClient []).2.2.2.2.2.2.2.2.2.2.2.2.2.2.2
     "k" _ (by decide) (by decide)⟩

/-- C3: on a response without error every read accessor returns what its
decoder yields: the decoded value with a nil error when the decoder succeeds,
and the zero value with the decoder's error when it fails. -/
theorem decode_result_returned (V : Valkey E R H K σ) (c : Client H K) (s : σ) :
    (∀ key, V.Error (c.response V ⟨"GET", [Arg.str key]⟩ s) = none →
      (∀ v, V.ToString (c.response V ⟨"GET", [Arg.str key]⟩ s) = (v, none) →
        (Client.GetString V c key s).1 = (v, none)) ∧
      (∀ v d, V.ToString (c.response V ⟨"GET", [Arg.str key]⟩ s) = (v, some d) →
        (Client.GetString V c key s).1 = ("", some d))) ∧
    (∀ key start stop,
      V.Error (c.response V ⟨"LRANGE", [Arg.str key, Arg.int start, Arg.int stop]⟩ s)
        = none →
      (∀ v, V.AsStrSlice
          (c.response V ⟨"LRANGE", [Arg.str key, Arg.int start, Arg.int stop]⟩ s)
          = (v, none) →
        (Client.GetSlice V c key start stop s).1 = (v, none)) ∧
      (∀ v d, V.AsStrSlice
          (c.response V ⟨"LRANGE", [Arg.str key, Arg.int start, Arg.int stop]⟩ s)
          = (v, some d) →
        (Client.GetSlice V c key start stop s).1 = (none, some d))) ∧
    (∀ key index, V.Error (c.response V ⟨"LINDEX", [Arg.str key, Arg.int index]⟩ s) = none →
      (∀ v, V.ToString (c.response V ⟨"LINDEX", [Arg.str key, Arg.int index]⟩ s)
          = (v, none) →
        (Client.GetSliceByIndex V c key index s).1 = (v, none)) ∧
      (∀ v d, V.ToString (c.response V ⟨"LINDEX", [Arg.str key, Arg.int index]⟩ s)
          = (v, some d) →
        (Client.GetSliceByIndex V c key index s).1 = ("", some d))) ∧
    (∀ key, V.Error (c.response V ⟨"LLEN", [Arg.str key]⟩ s) = none →
      (∀ v, V.AsInt64 (c.response V ⟨"LLEN", [Arg.str key]⟩ s) = (v, none) →
        (Client.GetSliceLen V c key s).1 = (v, none)) ∧
      (∀ v d, V.AsInt64 (c.response V ⟨"LLEN", [Arg.str key]⟩ s) = (v, some d) →
        (Client.GetSliceLen V c key s).1 = (0, some d))) ∧
    (∀ key field, V.Error (c.response V ⟨"HGET", [Arg.str key, Arg.str field]⟩ s) = none →
      (∀ v, V.ToString (c.response V ⟨"HGET", [Arg.str key, Arg.str field]⟩ s)
          = (v, none) →
        (Client.GetMapStr V c key field s).1 = (v, none)) ∧
      (∀ v d, V.ToString (c.response V ⟨"HGET", [Arg.str key, Arg.str field]⟩ s)
          = (v, some d) →
        (Client.GetMapStr V c key field s).1 = ("", some d))) ∧
    (∀ key field, V.Error (c.response V ⟨"HGET", [Arg.str key, Arg.str field]⟩ s) = none →
      (∀ v, V.AsInt64 (c.response V ⟨"HGET", [Arg.str key, Arg.str field]⟩ s)
          = (v, none) →
        (Client.GetMapInt64 V c key field s).1 = (v, none)) ∧
      (∀ v d, V.AsInt64 (c.response V ⟨"HGET", [Arg.str key, Arg.str field]⟩ s)
          = (v, some d) →
        (Client.GetMapInt64 V c key field s).1 = (0, some d))) ∧
    (∀ key, V.Error (c.response V ⟨"HGETALL", [Arg.str key]⟩ s) = none →
      (∀ v, V.AsStrMap (c.response V ⟨"HGETALL", [Arg.str key]⟩ s) = (v, none) →
        (Client.GetMapAll V c key s).1 = (v, none)) ∧
      (∀ v d, V.AsStrMap (c.response V ⟨"HGETALL", [Arg.str key]⟩ s) = (v, some d) →
        (Client.GetMapAll V c key s).1 = (none, some d))) ∧
    (∀ key, V.Error (c.response V ⟨"HLEN", [Arg.str key]⟩ s) = none →
      (∀ v, V.AsInt64 (c.response V ⟨"HLEN", [Arg.str key]⟩ s) = (v, none) →
        (Client.GetMapLen V c key s).1 = (v, none)) ∧
      (∀ v d, V.AsInt64 (c.response V ⟨"HLEN", [Arg.str key]⟩ s) = (v, some d) →
        (Client.GetMapLen V c key s).1 = (0, some d))) ∧
    (∀ key field,
      V.Error (c.response V ⟨"HEXISTS", [Arg.str key, Arg.str field]⟩ s) = none →
      (∀ v, V.AsBool (c.response V ⟨"HEXISTS", [Arg.str key, Arg.str field]⟩ s)
          = (v, none) →
        (Client.CheckIfMapFieldExists V c key field s).1 = (v, none)) ∧
      (∀ v d, V.AsBool (c.response V ⟨"HEXISTS", [Arg.str key, Arg.str field]⟩ s)
          = (v, some d) →
        (Client.CheckIfMapFieldExists V c key field s).1 = (false, some d))) ∧
    (∀ key, V.Error (c.response V ⟨"EXISTS", [Arg.str key]⟩ s) = none →
      (∀ v, V.AsBool (c.response V ⟨"EXISTS", [Arg.str key]⟩ s) = (v, none) →
        (Client.CheckIfKeyExists V c key s).1 = (v, none)) ∧
      (∀ v d, V.AsBool (c.response V ⟨"EXISTS", [Arg.str key]⟩ s) = (v, some d) →
        (Client.CheckIfKeyExists V c key s).1 = (false, some d))) := by
  refine ⟨?_, ?_, ?_, ?_, ?_, ?_, ?_, ?_, ?_, ?_⟩
  all_goals
    intros
    rename_i h
    simp only [Client.response, Client.GetString, Client.GetSliceByIndex,
      Client.GetMapStr, Client.GetSliceLen, Client.GetMapLen, Client.GetMapInt64,
      Client.CheckIfKeyExists, Client.CheckIfMapFieldExists, Client.GetSlice,
      Client.GetMapAll, B.Get, B.Lindex, B.Hget, B.Llen, B.Hlen, B.Exists, B.Hexists,
      B.Lrange, B.Hgetall, Builder.Key, Builder.Index, Builder.Field, Builder.Start,
      Builder.Stop, Builder.Build, List.nil_append, List.cons_append] at h ⊢
    constructor
    · intro v hv
      simp [h, hv]
    · intro v d hv
      simp [h, hv]

/-- C3 at concrete inputs: a string reply decodes, an integer reply fails to
decode as a string, and an oversized number fails to decode as an integer. -/
theorem decode_result_returned_witness :
    (Client.GetString (replying (Reply.str "v")) unitClient "k" []).1 = ("v", none) ∧
    (Client.GetString (replying (Reply.int 3)) unitClient "k" []).1
      = ("", some (ValkeyError.Decode "not a string")) ∧
    (Client.GetMapInt64 (replying (Reply.str "9223372036854775808")) unitClient "k" "f" []).1
      = (0, some (ValkeyError.Decode "value out of range")) ∧
    (Client.GetSlice (replying (Reply.array ["a", "b"])) unitClient "k" 0 (-1) []).1
      = (some ["a", "b"], none) :=
  ⟨((decode_result_returned (replying (Reply.str "v")) unitClient []).1 "k"
      (by decide)).1 "v" (by decide),
   ((decode_result_returned (replying (Reply.int 3)) unitClient []).1 "k"
      (by decide)).2 "" _ (by decide),
   ((decode_result_returned (replying (Reply.str "9223372036854775808"))
      unitClient []).2.2.2.2.2.1 "k" "f" (by decide)).2 9223372036854775807 _ (by decide),
   ((decode_result_returned (replying (Reply.array ["a", "b"])) unitClient []).2.1
      "k" 0 (-1) (by decide)).1 _ (by decide)⟩

/-- C4: when the response reports the remote "nil" condition, `GetInt64`
returns value 0 and a nil error. -/
theorem getInt64_missing_key (V : Valkey E R H K σ) (c : Client H K) (s : σ) (key : String)
    (h : isNotFound V (c.response V ⟨"GET", [Arg.str key]⟩ s) = true) :
    (Client.GetInt64 V c key s).1 = (0, none) := by
  simp only [Client.response, isNotFound, Client.GetInt64, B.Get, Builder.Key,
    Builder.Build, List.nil_append] at h ⊢
  split at h
  · simp_all
  · simp at h

/-- C4 at a concrete input: the remote answers `GET` with its nil reply. -/
theorem getInt64_missing_key_witness :
    isNotFound (replying Reply.null)
        (unitClient.response (replying Reply.null) ⟨"GET", [Arg.str "k"]⟩ []) = true ∧
      (Client.GetInt64 (replying Reply.null) unitClient "k" []).1 = (0, none) :=
  ⟨by decide, getInt64_missing_key (replying Reply.null) unitClient [] "k" (by decide)⟩

/-- C5: `SetString` dispatches exactly one command and returns that response's
error: without an expiry the plain `SET key value`, with an expiry `d` the same
command followed by the `EX` option carrying `d`.  On the recording handle the
log grows by exactly that command. -/
theorem setString_expiry_only_if_provided (V : Valkey E R H K σ) (c : Client H K) (s : σ)
    (key value : String) :
    Client.SetString V c key value none s
      = (V.Error (V.Do c.C c.Ctx ⟨"SET", [Arg.str key, Arg.str value]⟩ s).1,
         (V.Do c.C c.Ctx ⟨"SET", [Arg.str key, Arg.str value]⟩ s).2) ∧
    (∀ d : Duration, Client.SetString V c key value (some d) s
      = (V.Error (V.Do c.C c.Ctx ⟨"SET", [Arg.str key, Arg.str value, Arg.ex d]⟩ s).1,
         (V.Do c.C c.Ctx ⟨"SET", [Arg.str key, Arg.str value, Arg.ex d]⟩ s).2)) ∧
    (∀ reply log, (Client.SetString (replying reply) unitClient key value none log).2
      = log ++ [⟨"SET", [Arg.str key, Arg.str value]⟩]) ∧
    (∀ reply log (d : Duration),
      (Client.SetString (replying reply) unitClient key value (some d) log).2
      = log ++ [⟨"SET", [Arg.str key, Arg.str value, Arg.ex d]⟩]) :=
  ⟨rfl, fun _ => rfl, fun _ _ => rfl, fun _ _ _ => rfl⟩

/-- C6: every method dispatches exactly one command, of the catalogued
operation and with the method's arguments in order: the remote state after the
method is the state after that single dispatch, and on the recording handle the
log grows by exactly that command. -/
theorem one_command_per_method (V : Valkey E R H K σ) (c : Client H K) (s : σ)
    (reply : Reply) (log : List Completed) (key field value : String)
    (elements : List String) (start stop index : Int) :
    ((Client.Delete V c key s).2 = (V.Do c.C c.Ctx ⟨"DEL", [Arg.str key]⟩ s).2 ∧
      (Client.Delete (replying reply) unitClient key log).2
        = log ++ [⟨"DEL", [Arg.str key]⟩]) ∧
    ((Client.GetString V c key s).2 = (V.Do c.C c.Ctx ⟨"GET", [Arg.str key]⟩ s).2 ∧
      (Client.GetString (replying reply) unitClient key log).2
        = log ++ [⟨"GET", [Arg.str key]⟩]) ∧
    ((Client.GetInt64 V c key s).2 = (V.Do c.C c.Ctx ⟨"GET", [Arg.str key]⟩ s).2 ∧
      (Client.GetInt64 (replying reply) unitClient key log).2
        = log ++ [⟨"GET", [Arg.str key]⟩]) ∧
    ((Client.AppendSlice V c key elements s).2
        = (V.Do c.C c.Ctx ⟨"RPUSH", Arg.str key :: elements.map Arg.str⟩ s).2 ∧
      (Client.AppendSlice (replying reply) unitClient key elements log).2
        = log ++ [⟨"RPUSH", Arg.str key :: elements.map Arg.str⟩]) ∧
    ((Client.AppendSliceReverse V c key elements s).2
        = (V.Do c.C c.Ctx ⟨"LPUSH", Arg.str key :: elements.map Arg.str⟩ s).2 ∧
      (Client.AppendSliceReverse (replying reply) unitClient key elements log).2
        = log ++ [⟨"LPUSH", Arg.str key :: elements.map Arg.str⟩]) ∧
    ((Client.GetSlice V c key start stop s).2
        = (V.Do c.C c.Ctx ⟨"LRANGE", [Arg.str key, Arg.int start, Arg.int stop]⟩ s).2 ∧
      (Client.GetSlice (replying reply) unitClient key start stop log).2
        = log ++ [⟨"LRANGE", [Arg.str key, Arg.int start, Arg.int stop]⟩]) ∧
    ((Client.GetSliceByIndex V c key index s).2
        = (V.Do c.C c.Ctx ⟨"LINDEX", [Arg.str key, Arg.int index]⟩ s).2 ∧
      (Client.GetSliceByIndex (replying reply) unitClient key index log).2
        = log ++ [⟨"LINDEX", [Arg.str key, Arg.int index]⟩]) ∧
    ((Client.GetSliceLen V c key s).2 = (V.Do c.C c.Ctx ⟨"LLEN", [Arg.str key]⟩ s).2 ∧
      (Client.GetSliceLen (replying reply) unitClient key log).2
        = log ++ [⟨"LLEN", [Arg.str key]⟩]) ∧
    ((Client.SetMap V c key field value s).2
        = (V.Do c.C c.Ctx ⟨"HSET", [Arg.str key, Arg.str field, Arg.str value]⟩ s).2 ∧
      (Client.SetMap (replying reply) unitClient key field value log).2
        = log ++ [⟨"HSET", [Arg.str key, Arg.str field, Arg.str value]⟩]) ∧
    ((Client.GetMapStr V c key field s).2
        = (V.Do c.C c.Ctx ⟨"HGET", [Arg.str key, Arg.str field]⟩ s).2 ∧
      (Client.GetMapStr (replying reply) unitClient key field log).2
        = log ++ [⟨"HGET", [Arg.str key, Arg.str field]⟩]) ∧
    ((Client.GetMapInt64 V c key field s).2
        = (V.Do c.C c.Ctx ⟨"HGET", [Arg.str key, Arg.str field]⟩ s).2 ∧
      (Client.GetMapInt64 (replying reply) unitClient key field log).2
        = log ++ [⟨"HGET", [Arg.str key, Arg.str field]⟩]) ∧
    ((Client.GetMapAll V c key s).2 = (V.Do c.C c.Ctx ⟨"HGETALL", [Arg.str key]⟩ s).2 ∧
      (Client.GetMapAll (replying reply) unitClient key log).2
        = log ++ [⟨"HGETALL", [Arg.str key]⟩]) ∧
    ((Client.GetMapLen V c key s).2 = (V.Do c.C c.Ctx ⟨"HLEN", [Arg.str key]⟩ s).2 ∧
      (Client.GetMapLen (replying reply) unitClient key log).2
        = log ++ [⟨"HLEN", [Arg.str key]⟩]) ∧
    ((Client.CheckIfMapFieldExists V c key field s).2
        = (V.Do c.C c.Ctx ⟨"HEXISTS", [Arg.str key, Arg.str field]⟩ s).2 ∧
      (Client.CheckIfMapFieldExists (replying reply) unitClient key field log).2
        = log ++ [⟨"HEXISTS", [Arg.str key, Arg.str field]⟩]) ∧
    ((Client.CheckIfKeyExists V c key s).2
        = (V.Do c.C c.Ctx ⟨"EXISTS", [Arg.str key]⟩ s).2 ∧
      (Client.CheckIfKeyExists (replying reply) unitClient key log).2
        = log ++ [⟨"EXISTS", [Arg.str key]⟩]) := by
  refine ⟨⟨?_, ?_⟩, ⟨?_, ?_⟩, ⟨?_, ?_⟩, ⟨?_, ?_⟩, ⟨?_, ?_⟩, ⟨?_, ?_⟩, ⟨?_, ?_⟩, ⟨?_, ?_⟩,
    ⟨?_, ?_⟩, ⟨?_, ?_⟩, ⟨?_, ?_⟩, ⟨?_, ?_⟩, ⟨?_, ?_⟩, ⟨?_, ?_⟩, ⟨?_, ?_⟩⟩
  all_goals
    simp only [Client.Delete, Client.GetString, Client.GetInt64, Client.AppendSlice,
      Client.AppendSliceReverse, Client.GetSlice, Client.GetSliceByIndex,
      Client.GetSliceLen, Client.SetMap, Client.GetMapStr, Client.GetMapInt64,
      Client.GetMapAll, Client.GetMapLen, Client.CheckIfMapFieldExists,
      Client.CheckIfKeyExists, B.Del, B.Get, B.Rpush, B.Lpush, B.Lrange, B.Lindex, B.Llen,
      B.Hset, B.Hget, B.Hgetall, B.Hlen, B.Hexists, B.Exists, Builder.Key, Builder.Element,
      Builder.Start, Builder.Stop, Builder.Index, Builder.Field, Builder.FieldValues,
      Builder.FieldValue, Builder.Build, List.nil_append, List.cons_append, replying]
    all_goals first
      | rfl
      | (split <;> first | rfl | (split <;> rfl))

/-- C8: `NewClient` hands the dependency one option record holding the
address as the only initial address, the password, the database index, the
single-client flag and the TLS configuration as given; it returns no client and
the dependency's error when the dependency fails, and otherwise a client holding
the constructed handle and the background context with a nil error. -/
theorem newClient_contract (newClient : ClientOption T → H × Option E) (background : K)
    (address password : String) (db : Int) (forceSingleClient : Bool) (tlsConfig : Option T) :
    (∀ e, (newClient ⟨[address], password, db, forceSingleClient, tlsConfig⟩).2 = some e →
      NewClient newClient background address password db forceSingleClient tlsConfig
        = (none, some e)) ∧
    ((newClient ⟨[address], password, db, forceSingleClient, tlsConfig⟩).2 = none →
      NewClient newClient background address password db forceSingleClient tlsConfig
        = (some ⟨(newClient ⟨[address], password, db, forceSingleClient, tlsConfig⟩).1,
            background⟩, none)) ∧
    ((NewClient newClient background address password db forceSingleClient tlsConfig).1 = none
      ↔ (newClient ⟨[address], password, db, forceSingleClient, tlsConfig⟩).2 ≠ none) ∧
    NewClient (echoOptions : ClientOption T → ClientOption T × Option E) background
        address password db forceSingleClient tlsConfig
      = (some ⟨⟨[address], password, db, forceSingleClient, tlsConfig⟩, background⟩, none) := by
  refine ⟨?_, ?_, ?_, rfl⟩
  · intro e h
    simp [NewClient, h]
  · intro h
    simp [NewClient, h]
  · cases h : (newClient ⟨[address], password, db, forceSingleClient, tlsConfig⟩).2 <;>
      simp [NewClient, h]

/-- C8 at concrete inputs: a failing and a succeeding dependency constructor,
without and with a TLS configuration. -/
theorem newClient_contract_witness :
    NewClient (failingWith "dial tcp: connection refused" : ClientOption Unit → _) ()
        "127.0.0.1:6379" "pw" 0 true none
      = (none, some "dial tcp: connection refused") ∧
    NewClient (echoOptions : ClientOption Unit → ClientOption Unit × Option String) ()
        "127.0.0.1:6379" "pw" 2 false (some ())
      = (some ⟨⟨["127.0.0.1:6379"], "pw", 2, false, some ()⟩, ()⟩, none) :=
  ⟨(newClient_contract (failingWith "dial tcp: connection refused") ()
      "127.0.0.1:6379" "pw" 0 true none).1 _ rfl,
   (newClient_contract (echoOptions : ClientOption Unit → ClientOption Unit × Option String)
      () "127.0.0.1:6379" "pw" 2 false (some ())).2.1 rfl⟩

/-- The result of `GetInt64` as a function of the response to its command. -/
theorem getInt64_result (V : Valkey E R H K σ) (c : Client H K) (s : σ) (key : String) :
    (Client.GetInt64 V c key s).1
      = int64FallThrough V (c.response V ⟨"GET", [Arg.str key]⟩ s) := by
  simp only [Client.response, Client.GetInt64, int64FallThrough, B.Get, Builder.Key,
    Builder.Build, List.nil_append]
  split
  · split <;> rfl
  · rfl

/-- The result of `GetSliceLen`, `GetMapLen` and `GetMapInt64` as a function of
the response to their command. -/
theorem sibling_results (V : Valkey E R H K σ) (c : Client H K) (s : σ)
    (key field : String) :
    (Client.GetSliceLen V c key s).1
      = int64EarlyReturn V (c.response V ⟨"LLEN", [Arg.str key]⟩ s) ∧
    (Client.GetMapLen V c key s).1
      = int64EarlyReturn V (c.response V ⟨"HLEN", [Arg.str key]⟩ s) ∧
    (Client.GetMapInt64 V c key field s).1
      = int64EarlyReturn V (c.response V ⟨"HGET", [Arg.str key, Arg.str field]⟩ s) := by
  refine ⟨?_, ?_, ?_⟩
  all_goals
    simp only [Client.response, Client.GetSliceLen, Client.GetMapLen, Client.GetMapInt64,
      int64EarlyReturn, B.Llen, B.Hlen, B.Hget, Builder.Key, Builder.Field, Builder.Build,
      List.nil_append, List.cons_append]
    split <;> split <;> rfl

/-- Falling through against returning early, on one response for which the
decoder hands back the response's error with value 0: the errors agree, and the
pairs agree unless the response is error-free and the decoder fails on it with
a non-zero value. -/
theorem fallThrough_vs_earlyReturn (V : Valkey E R H K σ) (r : R)
    (hErr : ∀ e, V.Error r = some e → V.AsInt64 r = (0, some e)) :
    (int64FallThrough V r).2 = (int64EarlyReturn V r).2 ∧
    ((V.Error r = none → ∀ d, (V.AsInt64 r).2 = some d → (V.AsInt64 r).1 = 0) →
      int64FallThrough V r = int64EarlyReturn V r) := by
  unfold int64FallThrough int64EarlyReturn
  cases hE : V.Error r with
  | some e =>
    by_cases hn : V.IsValkeyNil e = true
    · simp [hn]
    · simp [hn, hErr e hE]
  | none =>
    cases hd : V.AsInt64 r with
    | mk v o =>
      cases o with
      | none => simp
      | some d =>
        refine ⟨by simp, fun hz => ?_⟩
        have hv : v = 0 := by simpa [hd] using hz rfl d
        simp [hv]

/-- C10: `GetInt64` does not behave like its sibling integer accessors on every
response.  The reference decoder yields `(0, e)` on every response carrying an
error `e`; on the error-free reply holding the string `9223372036854775808` it
fails with the range error and the value `9223372036854775807`.  `GetInt64`
hands that pair back as it is, while `GetMapInt64`, `GetSliceLen` and
`GetMapLen` return value 0 with the same error on the same response. -/
theorem getInt64_keeps_value_on_decode_failure :
    (∀ r e, (replying (Reply.str "9223372036854775808")).Error r = some e →
      (replying (Reply.str "9223372036854775808")).AsInt64 r = (0, some e)) ∧
    unitClient.response (replying (Reply.str "9223372036854775808"))
        ⟨"GET", [Arg.str "k"]⟩ []
      = unitClient.response (replying (Reply.str "9223372036854775808"))
        ⟨"HGET", [Arg.str "h", Arg.str "f"]⟩ [] ∧
    (Client.GetInt64 (replying (Reply.str "9223372036854775808")) unitClient "k" []).1
      = (9223372036854775807, some (ValkeyError.Decode "value out of range")) ∧
    (Client.GetMapInt64 (replying (Reply.str "9223372036854775808")) unitClient "h" "f" []).1
      = (0, some (ValkeyError.Decode "value out of range")) ∧
    (Client.GetSliceLen (replying (Reply.str "9223372036854775808")) unitClient "l" []).1
      = (0, some (ValkeyError.Decode "value out of range")) ∧
    (Client.GetMapLen (replying (Reply.str "9223372036854775808")) unitClient "h" []).1
      = (0, some (ValkeyError.Decode "value out of range")) ∧
    (Client.GetInt64 (replying (Reply.str "9223372036854775808")) unitClient "k" []).1
      ≠ (Client.GetMapInt64 (replying (Reply.str "9223372036854775808"))
          unitClient "h" "f" []).1 := by
  refine ⟨?_, by decide, by decide, by decide, by decide, by decide, by decide⟩
  intro r e h
  cases r <;> simp_all [replying, Reply.Error, Reply.AsInt64]

end Contract

/-! ## Lists through the list store -/

theorem strArgs_map_str (xs : List String) : strArgs (xs.map Arg.str) = xs := by
  induction xs with
  | nil => rfl
  | cons x xs ih => simp [strArgs, ih]

theorem foldl_push_head (xs acc : List String) :
    xs.foldl (fun acc x => x :: acc) acc = xs.reverse ++ acc := by
  induction xs generalizing acc with
  | nil => rfl
  | cons x xs ih => simp [ih]

theorem lrange_all (l : List String) : lrange l 0 (-1) = l := by
  cases l with
  | nil => simp [lrange]
  | cons x xs =>
    simp only [lrange]
    have h1 : ¬ ((0 : Int) > -1 + ((x :: xs).length : Int)) := by
      simp only [List.length_cons]; push_cast; omega
    have h2 : ((-1 + ((x :: xs).length : Int)) - 0 + 1).toNat = (x :: xs).length := by
      simp only [List.length_cons]; push_cast; omega
    simp only [lt_self_iff_false, if_false, show ((-1 : Int) < 0) from by decide, if_true,
      h1, h2, Int.toNat_zero, List.drop_zero, List.take_length]

/-- What `AppendSlice` leaves in the store, and what `GetSlice key 0 (-1)` reads. -/
theorem listStore_steps (s : ListStore) (key : String) (xs : List String) :
    (Client.AppendSlice listStore unitClient key xs s).2
      = Function.update s key (s key ++ xs) ∧
    (Client.AppendSliceReverse listStore unitClient key xs s).2
      = Function.update s key (xs.reverse ++ s key) ∧
    (Client.GetSlice listStore unitClient key 0 (-1) s).1 = (some (s key), none) := by
  refine ⟨?_, ?_, ?_⟩
  · simp [Client.AppendSlice, listStore, listStoreDo, B.Rpush, Builder.Key, Builder.Element,
      Builder.Build, strArgs_map_str]
  · simp [Client.AppendSliceReverse, listStore, listStoreDo, B.Lpush, Builder.Key,
      Builder.Element, Builder.Build, strArgs_map_str, foldl_push_head]
  · simp [Client.GetSlice, listStore, listStoreDo, B.Lrange, Builder.Key, Builder.Start,
      Builder.Stop, Builder.Build, lrange_all, Reply.Error, Reply.AsStrSlice]

/-- C7: over the list store, `AppendSlice` leaves the elements at the tail in
input order and `AppendSliceReverse` leaves them at the head in reverse input
order, as `GetSlice key 0 (-1)` reads them back; on a key with no entry,
appending `["a","b"]` reads back as `["a","b"]` and appending it in reverse
reads back as `["b","a"]`. -/
theorem append_then_getSlice (s : ListStore) (key : String) (xs : List String) :
    (Client.GetSlice listStore unitClient key 0 (-1)
        (Client.AppendSlice listStore unitClient key xs s).2).1
      = (some (s key ++ xs), none) ∧
    (Client.GetSlice listStore unitClient key 0 (-1)
        (Client.AppendSliceReverse listStore unitClient key xs s).2).1
      = (some (xs.reverse ++ s key), none) ∧
    (s key = [] →
      (Client.GetSlice listStore unitClient key 0 (-1)
          (Client.AppendSlice listStore unitClient key ["a", "b"] s).2).1
        = (some ["a", "b"], none) ∧
      (Client.GetSlice listStore unitClient key 0 (-1)
          (Client.AppendSliceReverse listStore unitClient key ["a", "b"] s).2).1
        = (some ["b", "a"], none)) := by
  have hget := fun t => (listStore_steps t key []).2.2
  have happ := fun ys => (listStore_steps s key ys).1
  have hrev := fun ys => (listStore_steps s key ys).2.1
  refine ⟨?_, ?_, fun h => ⟨?_, ?_⟩⟩
  · rw [hget, happ]; simp
  · rw [hget, hrev]; simp
  · rw [hget, happ]; simp [h]
  · rw [hget, hrev]; simp [h]

/-- C7 at a concrete input: the empty store and the key `k`. -/
theorem append_then_getSlice_witness :
    (Client.GetSlice listStore unitClient "k" 0 (-1)
        (Client.AppendSlice listStore unitClient "k" ["a", "b"] emptyStore).2).1
      = (some ["a", "b"], none) ∧
    (Client.GetSlice listStore unitClient "k" 0 (-1)
        (Client.AppendSliceReverse listStore unitClient "k" ["a", "b"] emptyStore).2).1
      = (some ["b", "a"], none) :=
  (append_then_getSlice emptyStore "k" []).2.2 rfl

end ValkeyGo
